import Mathlib

/-!
Shallow embedding of `xai_engine/get_analysis.py` (KUBI_Capstone).

Conventions of the embedding:
* Python numbers (JSON numbers) are modelled as `ℚ`; `int(x)` is truncation
  toward zero (`pyInt`).  The float literal `0.85` is modelled by the rational
  `17/20`; for the integer arguments that occur here (`overall_score` is a
  nonnegative multiple of 10, at most 970) `int(n * 0.85)` agrees with
  `pyInt (n * 17/20)`, since `n * 17/20` is a multiple of `1/20` and the
  rounding error of double arithmetic is far below `1/20`.
* A parsed JSON object is modelled by a structure with `Option` fields;
  `none` means the key is absent, so `d.get(k, v)` is `(field).getD v`.
* A raised Python exception is an `Except.error` carrying the message.
-/

/-- The `balances` sub-object of a Plaid account (`acc['balances']`). -/
structure Balances where
  current : Option ℚ
  limit : Option ℚ
deriving DecidableEq

/-- A Plaid account object as consumed by `calculate_factors_from_plaid`.
A missing `balances` key behaves exactly like `{}` (both `get`s default),
so it is modelled as `⟨none, none⟩`. -/
structure Account where
  balances : Balances
  subtype : Option String
  type : Option String
deriving DecidableEq

/-- A Plaid transaction object (`amount`, `date`, `category` keys). -/
structure Transaction where
  amount : Option ℚ
  date : Option String
  category : Option String
deriving DecidableEq

/-- The parsed top-level JSON object handed to `calculate_factors_from_plaid`.
The model restricts parsed objects to the two keys the program reads, so
Python dict truthiness (`if not plaid_data`) is: some key is present. -/
structure PlaidDict where
  accounts : Option (List Account)
  transactions : Option (List Transaction)
deriving DecidableEq

/-- One element of the `factors` array built by the scorer. -/
structure FactorResult where
  name : String
  impact : Int
  percentage : Int
  positive : Bool
  explanation : String
deriving DecidableEq

/-- The analysis dictionary returned by `calculate_factors_from_plaid`. -/
structure ScoreResult where
  score : Int
  factors : List FactorResult
  ficoEquivalent : Int
  vcCount : Nat
  onChainScore : Int
deriving DecidableEq

/-- The error dictionary built in `main`'s `except` handler. -/
structure ErrorResult where
  error : String
  score : Int
  factors : List FactorResult
  ficoEquivalent : Int
  vcCount : Nat
  onChainScore : Int
deriving DecidableEq

/-- Python `int(q)`: truncation toward zero (`q.den` is positive, so `tdiv` of the
numerator by the denominator is exactly the integer part). -/
def pyInt (q : ℚ) : Int := Int.tdiv q.num q.den

/-- `acc.get('balances', {}).get('current', 0)`. -/
def acc_current (acc : Account) : ℚ := acc.balances.current.getD 0

/-- `acc.get('balances', {}).get('limit', 0)`. -/
def acc_limit (acc : Account) : ℚ := acc.balances.limit.getD 0

/-- `total_balance = sum(acc...current... for acc in accounts)`. -/
def total_balance (accounts : List Account) : ℚ :=
  (accounts.map acc_current).sum

/-- `credit_accounts = [acc for acc in accounts if acc.get('subtype') == 'credit card']`. -/
def credit_accounts (accounts : List Account) : List Account :=
  accounts.filter (fun acc => decide (acc.subtype = some "credit card"))

/-- `total_credit_limit = sum(...limit... for acc in credit_accounts)`. -/
def total_credit_limit (accounts : List Account) : ℚ :=
  ((credit_accounts accounts).map acc_limit).sum

/-- `total_credit_used = sum(abs(...current...) for acc in credit_accounts if ...current... < 0)`. -/
def total_credit_used (accounts : List Account) : ℚ :=
  (((credit_accounts accounts).filter (fun acc => decide (acc_current acc < 0))).map
    (fun acc => |acc_current acc|)).sum

/-- `recent_txs = [tx for tx in transactions if tx.get('amount', 0) >= 0]`. -/
def recent_txs (transactions : List Transaction) : List Transaction :=
  transactions.filter (fun tx => decide (0 ≤ tx.amount.getD 0))

/-- `payment_history_score = min(100, (len(recent_txs) / max(1, len(transactions))) * 100)
    if transactions else 50`. -/
def payment_history_score (transactions : List Transaction) : ℚ :=
  if transactions.isEmpty then 50
  else min 100 (((recent_txs transactions).length : ℚ) /
                ((max 1 transactions.length : ℕ) : ℚ) * 100)

/-- `payment_history_impact = int((payment_history_score / 100) * 35)`. -/
def payment_history_impact (transactions : List Transaction) : Int :=
  pyInt (payment_history_score transactions / 100 * 35)

/-- `utilization = (total_credit_used / total_credit_limit * 100) if total_credit_limit > 0 else 0`. -/
def utilization (accounts : List Account) : ℚ :=
  if 0 < total_credit_limit accounts then
    total_credit_used accounts / total_credit_limit accounts * 100
  else 0

/-- The `if/elif/else` utilization band: `(utilization_score, utilization_impact)`. -/
def utilization_band (u : ℚ) : ℚ × Int :=
  if u < 30 then (100, 30)
  else if u < 50 then (80, 24)
  else if u < 70 then (60, 18)
  else (40, 12)

/-- `utilization_score` for the input's accounts. -/
def utilization_score (accounts : List Account) : ℚ :=
  (utilization_band (utilization accounts)).1

/-- `utilization_impact` for the input's accounts. -/
def utilization_impact (accounts : List Account) : Int :=
  (utilization_band (utilization accounts)).2

/-- `acc.get('subtype', acc.get('type', ''))`. -/
def account_type_key (acc : Account) : String :=
  acc.subtype.getD (acc.type.getD "")

/-- `diversity_count = len(set(acc.get('subtype', acc.get('type', '')) for acc in accounts))`. -/
def diversity_count (accounts : List Account) : Nat :=
  ((accounts.map account_type_key).dedup).length

/-- The diversity band: `(diversity_score, diversity_impact)`. -/
def diversity_band (n : Nat) : ℚ × Int :=
  if 4 ≤ n then (100, 10)
  else if n = 3 then (80, 8)
  else if n = 2 then (60, 6)
  else (40, 4)

/-- `diversity_score` for the input's accounts. -/
def diversity_score (accounts : List Account) : ℚ :=
  (diversity_band (diversity_count accounts)).1

/-- `diversity_impact` for the input's accounts. -/
def diversity_impact (accounts : List Account) : Int :=
  (diversity_band (diversity_count accounts)).2

/-- `'income' in s`: substring test, via `splitOn` (at least one occurrence). -/
def contains_income (s : String) : Bool :=
  2 ≤ (s.splitOn "income").length

/-- `income_txs = [tx for tx in transactions if 'income' in str(tx.get('category','')).lower()
    or tx.get('amount', 0) > 1000]`. -/
def income_txs (transactions : List Transaction) : List Transaction :=
  transactions.filter
    (fun tx => contains_income (tx.category.getD "").toLower || decide (1000 < tx.amount.getD 0))

/-- `income_stability_score = 70 if len(income_txs) > 0 else 50`. -/
def income_stability_score (transactions : List Transaction) : ℚ :=
  if 0 < (income_txs transactions).length then 70 else 50

/-- `income_stability_impact = int((income_stability_score / 100) * 15)`. -/
def income_stability_impact (transactions : List Transaction) : Int :=
  pyInt (income_stability_score transactions / 100 * 15)

/-- `tx.get('date')` is truthy: the key is present and the value is a nonempty string. -/
def date_truthy (tx : Transaction) : Bool :=
  match tx.date with
  | none => false
  | some s => s ≠ ""

/-- The account-age step:
`if transactions: oldest_tx = min(tx.get('date', '') for tx in transactions if tx.get('date'));
 (70, 7)  else: (50, 5)`.
`min` over an empty generator raises `ValueError`; `oldest_tx` is otherwise unused. -/
def account_age (transactions : List Transaction) : Except String (ℚ × Int) :=
  if transactions.isEmpty then Except.ok (50, 5)
  else
    match ((transactions.filter date_truthy).map (fun tx => tx.date.getD "")) with
    | [] => Except.error "ValueError: min() arg is an empty sequence"
    | d :: ds =>
      let _oldest_tx := ds.foldl min d
      Except.ok (70, 7)

/-- `calculate_factors_from_plaid(plaid_data)`: the whole scoring function.
`Except.error` models the `ValueError` that escapes from the account-age step. -/
def calculate_factors_from_plaid (plaid_data : PlaidDict) : Except String ScoreResult :=
  let accounts := plaid_data.accounts.getD []
  let transactions := plaid_data.transactions.getD []
  match account_age transactions with
  | Except.error e => Except.error e
  | Except.ok (account_age_sc, account_age_imp) =>
    let overall_score : Int :=
      (payment_history_impact transactions + utilization_impact accounts +
        diversity_impact accounts + income_stability_impact transactions +
        account_age_imp) * 10
    Except.ok
      { score := overall_score
        factors :=
          [ { name := "Payment History"
              impact := payment_history_impact transactions
              percentage := pyInt (payment_history_score transactions)
              positive := decide (30 ≤ payment_history_impact transactions)
              explanation :=
                "You have " ++ toString (recent_txs transactions).length ++
                " positive transactions. " ++
                (if 90 ≤ payment_history_score transactions then "Excellent consistency!"
                 else "Good payment history.") }
          , { name := "Credit Utilization"
              impact := utilization_impact accounts - 30
              percentage := if 0 < utilization accounts then pyInt (utilization accounts) else 0
              positive := decide (utilization accounts < 30)
              explanation :=
                "Using " ++ toString (pyInt (utilization accounts)) ++
                "% of available credit. " ++
                (if utilization accounts < 30 then "Excellent!"
                 else if utilization accounts < 70 then "Reduce to 30% for optimal score."
                 else "High utilization is hurting your score.") }
          , { name := "Account Diversity"
              impact := diversity_impact accounts - 10
              percentage := pyInt (diversity_score accounts)
              positive := decide (3 ≤ diversity_count accounts)
              explanation :=
                toString (diversity_count accounts) ++ " account type" ++
                (if diversity_count accounts ≠ 1 then "s" else "") ++ " active. " ++
                (if 4 ≤ diversity_count accounts then "Excellent diversity!"
                 else if diversity_count accounts < 3 then
                   "Adding more account types would optimize this factor."
                 else "Good account mix.") }
          , { name := "Income Stability"
              impact := income_stability_impact transactions - 15
              percentage := pyInt (income_stability_score transactions)
              positive := decide (70 ≤ income_stability_score transactions)
              explanation :=
                if 70 ≤ income_stability_score transactions then "Consistent income detected."
                else "Income varies month-to-month. Consistent income improves creditworthiness." }
          , { name := "Account Age"
              impact := account_age_imp - 10
              percentage := pyInt account_age_sc
              positive := decide (70 ≤ account_age_sc)
              explanation :=
                if 70 ≤ account_age_sc then "Good credit history length."
                else "Newer accounts. Building credit history takes time." } ]
        ficoEquivalent := pyInt ((overall_score : ℚ) * (17 / 20))
        vcCount := 0
        onChainScore := pyInt ((overall_score : ℚ) / 10) }

/-- The literal `default_analysis` dictionary of `main`'s no-data branch. -/
def default_analysis : ScoreResult :=
  { score := 674
    factors :=
      [ { name := "Payment History", impact := 35, percentage := 92, positive := true
          explanation := "Connect your bank account via Plaid to see your real payment history analysis powered by XAI." }
      , { name := "Credit Utilization", impact := -20, percentage := 65, positive := false
          explanation := "Connect your bank account via Plaid to see your real credit utilization analysis powered by XAI." }
      , { name := "Account Diversity", impact := 10, percentage := 60, positive := true
          explanation := "Connect your bank account via Plaid to see your account diversity analysis powered by XAI." }
      , { name := "Income Stability", impact := -10, percentage := 55, positive := false
          explanation := "Connect your bank account via Plaid to see your income stability analysis powered by XAI." }
      , { name := "Account Age", impact := 15, percentage := 70, positive := true
          explanation := "Connect your bank account via Plaid to see your account age analysis powered by XAI." } ]
    ficoEquivalent := 720
    vcCount := 0
    onChainScore := 68 }

/-- The `error_response` dictionary built in `main`'s `except` handler. -/
def error_response (e : String) : ErrorResult :=
  { error := e
    score := 674
    factors :=
      [ { name := "Payment History", impact := 35, percentage := 92, positive := true
          explanation := "XAI analysis error: " ++ e ++ ". Please check server logs." } ]
    ficoEquivalent := 720
    vcCount := 0
    onChainScore := 68 }

/-- What `main` prints to stdout: either an analysis dictionary or the error dictionary. -/
inductive MainOutput where
  | analysis (r : ScoreResult)
  | errorReport (r : ErrorResult)
deriving DecidableEq

/-- Python truthiness of a dict: at least one key present. -/
def dict_truthy (d : PlaidDict) : Bool :=
  d.accounts.isSome || d.transactions.isSome

/-- `not plaid_data` where `plaid_data` is `None` or a parsed dict. -/
def py_not_plaid_data (plaid_data : Option PlaidDict) : Bool :=
  match plaid_data with
  | none => true
  | some d => !dict_truthy d

-- renamed from `main`: Lean reserves that name for executables.
/-- `main`, as a function of the value `load_plaid_data` produced (`none` when the
input file is absent or unloadable): the printed dictionary and the exit status. -/
def main_fn (plaid_data : Option PlaidDict) : MainOutput × Nat :=
  if py_not_plaid_data plaid_data then (MainOutput.analysis default_analysis, 0)
  else
    match plaid_data with
    | none => (MainOutput.analysis default_analysis, 0)
    | some d =>
      match calculate_factors_from_plaid d with
      | Except.ok r => (MainOutput.analysis r, 0)
      | Except.error e => (MainOutput.errorReport (error_response e), 1)

/-! ### Helper lemmas about the embedded computations -/

lemma pyInt_of_nonneg {q : ℚ} (h : 0 ≤ q) : pyInt q = ⌊q⌋ := by
  rw [pyInt, Rat.floor_def, Int.tdiv_eq_ediv (Rat.num_nonneg.mpr h) (Int.natCast_nonneg _)]

lemma pyInt_nonneg {q : ℚ} (h : 0 ≤ q) : 0 ≤ pyInt q := by
  rw [pyInt_of_nonneg h]
  exact Int.floor_nonneg.mpr h

lemma pyInt_le_hundred {q : ℚ} (h0 : 0 ≤ q) (h : q ≤ 100) : pyInt q ≤ 100 := by
  rw [pyInt_of_nonneg h0]
  have := Int.floor_le_floor (α := ℚ) h
  simpa using this

lemma total_credit_used_nonneg (accounts : List Account) : 0 ≤ total_credit_used accounts := by
  apply List.sum_nonneg
  intro x hx
  obtain ⟨acc, -, rfl⟩ := List.mem_map.mp hx
  exact abs_nonneg _

lemma utilization_nonneg (accounts : List Account) : 0 ≤ utilization accounts := by
  unfold utilization
  split
  · refine mul_nonneg (div_nonneg (total_credit_used_nonneg accounts) ?_) (by norm_num)
    exact le_of_lt ‹_›
  · exact le_refl 0

lemma payment_history_score_nonneg (transactions : List Transaction) :
    0 ≤ payment_history_score transactions := by
  unfold payment_history_score
  split
  · norm_num
  · exact le_min (by norm_num) (by positivity)

lemma payment_history_score_le (transactions : List Transaction) :
    payment_history_score transactions ≤ 100 := by
  unfold payment_history_score
  split
  · norm_num
  · exact min_le_left _ _

lemma payment_history_impact_nonneg (transactions : List Transaction) :
    0 ≤ payment_history_impact transactions := by
  unfold payment_history_impact
  apply pyInt_nonneg
  have := payment_history_score_nonneg transactions
  positivity

lemma utilization_band_cases (u : ℚ) :
    utilization_band u = (100, 30) ∨ utilization_band u = (80, 24) ∨
      utilization_band u = (60, 18) ∨ utilization_band u = (40, 12) := by
  unfold utilization_band
  split_ifs <;> simp

lemma diversity_band_cases (n : Nat) :
    diversity_band n = (100, 10) ∨ diversity_band n = (80, 8) ∨
      diversity_band n = (60, 6) ∨ diversity_band n = (40, 4) := by
  unfold diversity_band
  split_ifs <;> simp

lemma utilization_impact_nonneg (accounts : List Account) : 0 ≤ utilization_impact accounts := by
  unfold utilization_impact
  rcases utilization_band_cases (utilization accounts) with h | h | h | h <;> rw [h] <;> norm_num

lemma diversity_impact_nonneg (accounts : List Account) : 0 ≤ diversity_impact accounts := by
  unfold diversity_impact
  rcases diversity_band_cases (diversity_count accounts) with h | h | h | h <;> rw [h] <;> norm_num

lemma income_stability_score_cases (transactions : List Transaction) :
    income_stability_score transactions = 70 ∨ income_stability_score transactions = 50 := by
  unfold income_stability_score
  split <;> simp

lemma income_stability_impact_cases (transactions : List Transaction) :
    income_stability_impact transactions = 10 ∨ income_stability_impact transactions = 7 := by
  unfold income_stability_impact
  rcases income_stability_score_cases transactions with h | h <;> rw [h]
  · left
    with_unfolding_all decide
  · right
    with_unfolding_all decide

lemma income_stability_impact_nonneg (transactions : List Transaction) :
    0 ≤ income_stability_impact transactions := by
  rcases income_stability_impact_cases transactions with h | h <;> rw [h] <;> norm_num

lemma account_age_cases {transactions : List Transaction} {s : ℚ} {i : Int}
    (h : account_age transactions = Except.ok (s, i)) :
    (s = 50 ∧ i = 5) ∨ (s = 70 ∧ i = 7) := by
  unfold account_age at h
  split at h
  · left
    simpa [Prod.ext_iff, eq_comm] using h
  · split at h
    · exact absurd h (by simp)
    · right
      simpa [Prod.ext_iff, eq_comm] using h

/-! ### Claim theorems -/

/-- Claim C3 (code bug): the claim says `calculate_factors_from_plaid` is total and
never raises, but on the input `{"transactions": [{"amount": 50}]}` (a nonempty
transaction list in which no transaction carries a truthy `date`) the account-age
step evaluates `min()` over an empty generator and raises `ValueError`.  The
second half of the claim is correct: for empty `accounts` and `transactions` no
exception occurs and `paymentHistoryScore = 50`, `utilization = 0`,
`diversityCount = 0`. -/
theorem claim_C3_totality_code_bug :
    calculate_factors_from_plaid
        { accounts := none, transactions := some [⟨some 50, none, none⟩] } =
      Except.error "ValueError: min() arg is an empty sequence" ∧
    (∃ r, calculate_factors_from_plaid { accounts := some [], transactions := some [] } =
      Except.ok r) ∧
    payment_history_score [] = 50 ∧
    utilization [] = 0 ∧
    diversity_count [] = 0 := by
  with_unfolding_all exact ⟨rfl, ⟨_, rfl⟩, by decide, by decide, rfl⟩

/-- The accounts list of the spec's end-to-end example (§8). -/
def example_accounts : List Account :=
  [⟨⟨some (-300), some 1000⟩, some "credit card", none⟩]

/-- The transactions list of the spec's end-to-end example (§8): no `date` keys. -/
def example_transactions : List Transaction :=
  [⟨some 50, none, none⟩, ⟨some (-20), none, none⟩]

/-- Claim C4 (code bug): on the spec's end-to-end example input the intermediate
values are exactly as the claim states (`totalCreditUsed = 300`,
`utilization = 30` in the `<50` band with score 80, band impact 24, displayed
impact -6, `paymentHistoryScore = 50` with impact 17) — but the function never
returns a factor list for this input: since neither transaction has a `date`,
the account-age step raises `ValueError`, so no overall score, ficoEquivalent
or onChainScore is produced. -/
theorem claim_C4_example_code_bug :
    calculate_factors_from_plaid
        { accounts := some example_accounts, transactions := some example_transactions } =
      Except.error "ValueError: min() arg is an empty sequence" ∧
    total_credit_used example_accounts = 300 ∧
    utilization example_accounts = 30 ∧
    utilization_score example_accounts = 80 ∧
    utilization_impact example_accounts = 24 ∧
    utilization_impact example_accounts - 30 = -6 ∧
    payment_history_score example_transactions = 50 ∧
    payment_history_impact example_transactions = 17 := by
  with_unfolding_all
    exact ⟨rfl, by decide, by decide, by decide, by decide, by decide, by decide, by decide⟩

/-- Claim C6: when the input is absent or unloadable (`load_plaid_data` yields
`None`), `main` prints the literal `default_analysis` dictionary — score 674,
five canned factors, ficoEquivalent 720, onChainScore 68 — and exits with
status 0. -/
theorem claim_C6_fallback_default :
    main_fn none = (MainOutput.analysis default_analysis, 0) ∧
    default_analysis.score = 674 ∧
    default_analysis.factors.length = 5 ∧
    default_analysis.factors.map (fun fa => fa.name) =
      ["Payment History", "Credit Utilization", "Account Diversity",
       "Income Stability", "Account Age"] ∧
    default_analysis.ficoEquivalent = 720 ∧
    default_analysis.onChainScore = 68 :=
  ⟨rfl, rfl, rfl, rfl, rfl, rfl⟩

/-- Claim C9: `calculate_factors_from_plaid` is a pure function of its
`ScoringInput`, so two calls on equal inputs return identical results. -/
theorem claim_C9_deterministic (d₁ d₂ : PlaidDict) (h : d₁ = d₂) :
    calculate_factors_from_plaid d₁ = calculate_factors_from_plaid d₂ :=
  congrArg calculate_factors_from_plaid h

/-- Witness for C9 at a concrete input. -/
theorem claim_C9_witness :
    calculate_factors_from_plaid { accounts := some [], transactions := some [] } =
      calculate_factors_from_plaid { accounts := some [], transactions := some [] } :=
  claim_C9_deterministic _ _ rfl

/-- Claim C10: `main` tests the loaded input with Python truthiness
(`if not plaid_data`), so the successfully parsed but falsy `{}` takes the
constant-fallback path (score 674, exit 0), while the truthy
`{"accounts": [], "transactions": []}` goes through the computed path and
yields score 630 ≠ 674. -/
theorem claim_C10_truthiness :
    py_not_plaid_data (some { accounts := none, transactions := none }) = true ∧
    main_fn (some { accounts := none, transactions := none }) =
      (MainOutput.analysis default_analysis, 0) ∧
    py_not_plaid_data (some { accounts := some [], transactions := some [] }) = false ∧
    (∃ r, calculate_factors_from_plaid { accounts := some [], transactions := some [] } =
        Except.ok r ∧
      main_fn (some { accounts := some [], transactions := some [] }) =
        (MainOutput.analysis r, 0) ∧
      r.score = 630 ∧ r ≠ default_analysis) := by
  with_unfolding_all exact ⟨rfl, rfl, rfl, ⟨_, rfl, rfl, by decide, by decide⟩⟩

lemma diversity_score_bounds (accounts : List Account) :
    0 ≤ diversity_score accounts ∧ diversity_score accounts ≤ 100 := by
  unfold diversity_score
  rcases diversity_band_cases (diversity_count accounts) with h | h | h | h <;> rw [h] <;>
    norm_num

lemma income_stability_score_bounds (transactions : List Transaction) :
    0 ≤ income_stability_score transactions ∧ income_stability_score transactions ≤ 100 := by
  rcases income_stability_score_cases transactions with h | h <;> rw [h] <;> norm_num

/-- Claim C5: whenever `calculate_factors_from_plaid` returns, the result holds
exactly 5 factors, in the fixed name order Payment History, Credit Utilization,
Account Diversity, Income Stability, Account Age. -/
theorem claim_C5_five_factors (d : PlaidDict) :
    (calculate_factors_from_plaid d).map (fun r => r.factors.length) =
      (calculate_factors_from_plaid d).map (fun _ => 5) ∧
    (calculate_factors_from_plaid d).map (fun r => r.factors.map (fun fa => fa.name)) =
      (calculate_factors_from_plaid d).map (fun _ =>
        ["Payment History", "Credit Utilization", "Account Diversity",
         "Income Stability", "Account Age"]) := by
  cases haa : account_age (d.transactions.getD []) with
  | error e => constructor <;> simp [calculate_factors_from_plaid, haa, Except.map]
  | ok p =>
    obtain ⟨s, i⟩ := p
    constructor <;> simp [calculate_factors_from_plaid, haa, Except.map]

/-- Claim C1: whenever `calculate_factors_from_plaid` returns, the overall score
is `(paymentHistoryImpact + utilizationBandImpact + diversityBandImpact +
incomeStabilityImpact + accountAgeBaseImpact) * 10` built from the pre-offset
impacts of steps 2-6, `ficoEquivalent = floor(overall * 0.85)` (with `0.85`
modelled exactly as `17/20`) and `onChainScore = floor(overall / 10)`. -/
theorem claim_C1_overall_formula (d : PlaidDict) :
    (calculate_factors_from_plaid d).map (fun r => r.score) =
      (account_age (d.transactions.getD [])).map (fun p =>
        (payment_history_impact (d.transactions.getD []) +
         utilization_impact (d.accounts.getD []) +
         diversity_impact (d.accounts.getD []) +
         income_stability_impact (d.transactions.getD []) + p.2) * 10) ∧
    (calculate_factors_from_plaid d).map (fun r => r.ficoEquivalent) =
      (calculate_factors_from_plaid d).map (fun r => ⌊(r.score : ℚ) * (17 / 20)⌋) ∧
    (calculate_factors_from_plaid d).map (fun r => r.onChainScore) =
      (calculate_factors_from_plaid d).map (fun r => ⌊(r.score : ℚ) / 10⌋) := by
  cases haa : account_age (d.transactions.getD []) with
  | error e =>
    refine ⟨?_, ?_, ?_⟩ <;> simp only [calculate_factors_from_plaid, haa, Except.map]
  | ok p =>
    obtain ⟨s, i⟩ := p
    have hi : (0 : Int) ≤ i := by
      rcases account_age_cases haa with ⟨-, h⟩ | ⟨-, h⟩ <;> rw [h] <;> norm_num
    have hsum : (0 : Int) ≤
        (payment_history_impact (d.transactions.getD []) +
         utilization_impact (d.accounts.getD []) +
         diversity_impact (d.accounts.getD []) +
         income_stability_impact (d.transactions.getD []) + i) * 10 := by
      have h1 := payment_history_impact_nonneg (d.transactions.getD [])
      have h2 := utilization_impact_nonneg (d.accounts.getD [])
      have h3 := diversity_impact_nonneg (d.accounts.getD [])
      have h4 := income_stability_impact_nonneg (d.transactions.getD [])
      positivity
    have hcast : (0 : ℚ) ≤
        (((payment_history_impact (d.transactions.getD []) +
           utilization_impact (d.accounts.getD []) +
           diversity_impact (d.accounts.getD []) +
           income_stability_impact (d.transactions.getD []) + i) * 10 : Int) : ℚ) :=
      Int.cast_nonneg.mpr hsum
    have hmul : (0 : ℚ) ≤
        (((payment_history_impact (d.transactions.getD []) +
           utilization_impact (d.accounts.getD []) +
           diversity_impact (d.accounts.getD []) +
           income_stability_impact (d.transactions.getD []) + i) * 10 : Int) : ℚ) * (17 / 20) :=
      mul_nonneg hcast (by norm_num)
    have hdiv : (0 : ℚ) ≤
        (((payment_history_impact (d.transactions.getD []) +
           utilization_impact (d.accounts.getD []) +
           diversity_impact (d.accounts.getD []) +
           income_stability_impact (d.transactions.getD []) + i) * 10 : Int) : ℚ) / 10 :=
      div_nonneg hcast (by norm_num)
    refine ⟨?_, ?_, ?_⟩ <;> simp only [calculate_factors_from_plaid, haa, Except.map]
    · rw [pyInt_of_nonneg hmul]
    · rw [pyInt_of_nonneg hdiv]

/-- Claim C8 (amended): every factor's `percentage` is a nonnegative integer, and
every factor except Credit Utilization has `percentage ≤ 100`; the Credit
Utilization percentage is `floor(utilization)` when `utilization > 0` (else 0),
which exceeds 100 whenever credit used exceeds the credit limit. -/
theorem claim_C8_percentage_bounds (d : PlaidDict) :
    (calculate_factors_from_plaid d).map (fun r =>
        decide (∀ fa ∈ r.factors,
          0 ≤ fa.percentage ∧ (fa.name ≠ "Credit Utilization" → fa.percentage ≤ 100))) =
      (calculate_factors_from_plaid d).map (fun _ => true) ∧
    (calculate_factors_from_plaid d).map (fun r =>
        (r.factors.get? 1).map (fun fa => fa.percentage)) =
      (calculate_factors_from_plaid d).map (fun _ =>
        some (if 0 < utilization (d.accounts.getD [])
              then ⌊utilization (d.accounts.getD [])⌋ else 0)) := by
  cases haa : account_age (d.transactions.getD []) with
  | error e =>
    constructor <;> simp only [calculate_factors_from_plaid, haa, Except.map]
  | ok p =>
    obtain ⟨s, i⟩ := p
    have hs : s = 50 ∨ s = 70 := by
      rcases account_age_cases haa with ⟨h, -⟩ | ⟨h, -⟩ <;> [left; right] <;> exact h
    constructor
    · simp only [calculate_factors_from_plaid, haa, Except.map, Except.ok.injEq]
      rw [decide_eq_true_eq]
      intro fa hfa
      simp only [List.mem_cons, List.not_mem_nil, or_false] at hfa
      rcases hfa with rfl | rfl | rfl | rfl | rfl
      · exact ⟨pyInt_nonneg (payment_history_score_nonneg _), fun _ =>
          pyInt_le_hundred (payment_history_score_nonneg _) (payment_history_score_le _)⟩
      · refine ⟨?_, fun h => absurd rfl h⟩
        simp only
        split
        · exact pyInt_nonneg (utilization_nonneg _)
        · exact le_refl 0
      · obtain ⟨h0, h1⟩ := diversity_score_bounds (d.accounts.getD [])
        exact ⟨pyInt_nonneg h0, fun _ => pyInt_le_hundred h0 h1⟩
      · obtain ⟨h0, h1⟩ := income_stability_score_bounds (d.transactions.getD [])
        exact ⟨pyInt_nonneg h0, fun _ => pyInt_le_hundred h0 h1⟩
      · rcases hs with rfl | rfl
        · exact ⟨@pyInt_nonneg 50 (by norm_num),
            fun _ => @pyInt_le_hundred 50 (by norm_num) (by norm_num)⟩
        · exact ⟨@pyInt_nonneg 70 (by norm_num),
            fun _ => @pyInt_le_hundred 70 (by norm_num) (by norm_num)⟩
    · simp only [calculate_factors_from_plaid, haa, Except.map, List.get?, Option.map,
        Except.ok.injEq, Option.some.injEq]
      split
      · exact pyInt_of_nonneg (utilization_nonneg _)
      · rfl

/-- Counterexample to claim C8 as stated: with a single credit-card account that
is 2000 over-drawn against a 1000 limit, utilization is 200 and the Credit
Utilization factor's `percentage` is 200, far above 100. -/
theorem claim_C8_counterexample :
    ∃ r, calculate_factors_from_plaid
        { accounts := some [⟨⟨some (-2000), some 1000⟩, some "credit card", none⟩]
          transactions := some [] } = Except.ok r ∧
      ∃ fa ∈ r.factors, fa.name = "Credit Utilization" ∧ 100 < fa.percentage := by
  with_unfolding_all exact ⟨_, rfl, by decide⟩

/-- Piecewise description of the utilization band, with the strict `<`
boundaries of the source. -/
lemma utilization_band_spec (u : ℚ) :
    (u < 30 → utilization_band u = (100, 30)) ∧
    (30 ≤ u → u < 50 → utilization_band u = (80, 24)) ∧
    (50 ≤ u → u < 70 → utilization_band u = (60, 18)) ∧
    (70 ≤ u → utilization_band u = (40, 12)) := by
  unfold utilization_band
  refine ⟨fun h1 => ?_, fun h1 h2 => ?_, fun h1 h2 => ?_, fun h1 => ?_⟩ <;>
    split_ifs <;> first | rfl | linarith

/-- Claim C2: utilization is `totalCreditUsed / totalCreditLimit * 100` when the
limit is positive (0 when the limit is 0), mapped by strict `<` comparisons onto
the bands `(100,30)`, `(80,24)`, `(60,18)`, `(40,12)`, with 30/50/70 falling in
the lower band; the reported factor impact is `bandImpact - 30` and the factor's
positive flag is the boolean of `utilization < 30`. -/
theorem claim_C2_utilization_banding :
    (∀ accounts : List Account,
      (0 < total_credit_limit accounts →
        utilization accounts =
          total_credit_used accounts / total_credit_limit accounts * 100) ∧
      (total_credit_limit accounts = 0 → utilization accounts = 0) ∧
      (utilization accounts < 30 →
        utilization_score accounts = 100 ∧ utilization_impact accounts = 30) ∧
      (30 ≤ utilization accounts → utilization accounts < 50 →
        utilization_score accounts = 80 ∧ utilization_impact accounts = 24) ∧
      (50 ≤ utilization accounts → utilization accounts < 70 →
        utilization_score accounts = 60 ∧ utilization_impact accounts = 18) ∧
      (70 ≤ utilization accounts →
        utilization_score accounts = 40 ∧ utilization_impact accounts = 12) ∧
      (decide (utilization accounts < 30) = true ↔ utilization accounts < 30)) ∧
    (∀ d : PlaidDict,
      (calculate_factors_from_plaid d).map (fun r =>
          (r.factors.get? 1).map (fun fa => (fa.impact, fa.positive))) =
        (calculate_factors_from_plaid d).map (fun _ =>
          some (utilization_impact (d.accounts.getD []) - 30,
                decide (utilization (d.accounts.getD []) < 30)))) := by
  constructor
  · intro accounts
    obtain ⟨hb1, hb2, hb3, hb4⟩ := utilization_band_spec (utilization accounts)
    refine ⟨fun h => ?_, fun h => ?_, fun h => ?_, fun h1 h2 => ?_, fun h1 h2 => ?_,
      fun h => ?_, decide_eq_true_iff⟩
    · unfold utilization
      rw [if_pos h]
    · unfold utilization
      rw [if_neg (by rw [h]; exact lt_irrefl 0)]
    · have := hb1 h
      constructor <;> simp [utilization_score, utilization_impact, this]
    · have := hb2 h1 h2
      constructor <;> simp [utilization_score, utilization_impact, this]
    · have := hb3 h1 h2
      constructor <;> simp [utilization_score, utilization_impact, this]
    · have := hb4 h
      constructor <;> simp [utilization_score, utilization_impact, this]
  · intro d
    cases haa : account_age (d.transactions.getD []) with
    | error e => simp only [calculate_factors_from_plaid, haa, Except.map]
    | ok p =>
      obtain ⟨s, i⟩ := p
      simp only [calculate_factors_from_plaid, haa, Except.map, List.get?, Option.map]

/-- Witness for C2: an input whose utilization is exactly 30 (the 30% boundary)
falls in the `<50` band with score 80 and band impact 24. -/
theorem claim_C2_witness :
    (0 < total_credit_limit [⟨⟨some (-300), some 1000⟩, some "credit card", none⟩] ∧
      utilization [⟨⟨some (-300), some 1000⟩, some "credit card", none⟩] =
        total_credit_used [⟨⟨some (-300), some 1000⟩, some "credit card", none⟩] /
          total_credit_limit [⟨⟨some (-300), some 1000⟩, some "credit card", none⟩] * 100) ∧
    (30 : ℚ) ≤ utilization [⟨⟨some (-300), some 1000⟩, some "credit card", none⟩] ∧
    utilization [⟨⟨some (-300), some 1000⟩, some "credit card", none⟩] < 50 ∧
    utilization_score [⟨⟨some (-300), some 1000⟩, some "credit card", none⟩] = 80 ∧
    utilization_impact [⟨⟨some (-300), some 1000⟩, some "credit card", none⟩] = 24 := by
  have h := (claim_C2_utilization_banding.1
    [⟨⟨some (-300), some 1000⟩, some "credit card", none⟩])
  have h30 : (30 : ℚ) ≤ utilization [⟨⟨some (-300), some 1000⟩, some "credit card", none⟩] := by
    with_unfolding_all decide
  have h50 : utilization [⟨⟨some (-300), some 1000⟩, some "credit card", none⟩] < 50 := by
    with_unfolding_all decide
  have hlim : 0 < total_credit_limit [⟨⟨some (-300), some 1000⟩, some "credit card", none⟩] := by
    with_unfolding_all decide
  exact ⟨⟨hlim, h.1 hlim⟩, h30, h50, (h.2.2.2.1 h30 h50).1, (h.2.2.2.1 h30 h50).2⟩

/-- If the scorer raises, its transaction list was nonempty, so the input dict is
truthy and `main` reached the computed path. -/
lemma calc_error_truthy {d : PlaidDict} {e : String}
    (h : calculate_factors_from_plaid d = Except.error e) : dict_truthy d = true := by
  cases ht : d.transactions with
  | none => simp [calculate_factors_from_plaid, account_age, ht] at h
  | some l =>
    cases l with
    | nil => simp [calculate_factors_from_plaid, account_age, ht] at h
    | cons t ts => simp [dict_truthy, ht]

/-- Claim C7: an exception during scoring is caught in `main` and turned into the
`error_response` dictionary — the default score fields (674 / 720 / 68), an
`error` field holding the message, and one factor whose explanation names the
error — and `main` exits with status 1 exactly when scoring raised. -/
theorem claim_C7_error_path :
    (∀ (d : PlaidDict) (e : String), calculate_factors_from_plaid d = Except.error e →
      main_fn (some d) = (MainOutput.errorReport (error_response e), 1)) ∧
    (∀ e : String,
      (error_response e).score = 674 ∧
      (error_response e).ficoEquivalent = 720 ∧
      (error_response e).onChainScore = 68 ∧
      (error_response e).error = e ∧
      (error_response e).factors.map (fun fa => fa.explanation) =
        ["XAI analysis error: " ++ e ++ ". Please check server logs."]) ∧
    (∀ pd : Option PlaidDict,
      (main_fn pd).2 ≠ 0 ↔
        ∃ d e, pd = some d ∧ calculate_factors_from_plaid d = Except.error e) := by
  refine ⟨?_, fun e => ⟨rfl, rfl, rfl, rfl, rfl⟩, ?_⟩
  · intro d e h
    have htr := calc_error_truthy h
    simp [main_fn, py_not_plaid_data, htr, h]
  · intro pd
    constructor
    · intro hne
      match pd with
      | none => exact absurd rfl hne
      | some d =>
        cases htr : dict_truthy d with
        | false => exact absurd (by simp [main_fn, py_not_plaid_data, htr]) hne
        | true =>
          cases hc : calculate_factors_from_plaid d with
          | ok r => exact absurd (by simp [main_fn, py_not_plaid_data, htr, hc]) hne
          | error e => exact ⟨d, e, rfl, hc⟩
    · rintro ⟨d, e, rfl, hc⟩
      have htr := calc_error_truthy hc
      simp [main_fn, py_not_plaid_data, htr, hc]

/-- Witness for C7: the date-less single-transaction input makes the scorer
raise, and `main` prints the error dictionary and exits with status 1. -/
theorem claim_C7_witness :
    main_fn (some { accounts := none, transactions := some [⟨some 50, none, none⟩] }) =
      (MainOutput.errorReport
        (error_response "ValueError: min() arg is an empty sequence"), 1) :=
  claim_C7_error_path.1 _ _ (by with_unfolding_all rfl)
